import Mathlib

/-!
Verification of the Drip C++ SDK client (request pipeline, error
classification, idempotency key generation, health check, and the
`recordRun` orchestrator) against its natural-language specification.

The C++ sources are shallowly embedded: pure helpers become Lean
functions; the HTTP transport is abstracted as an oracle value
(`CurlOutcome` for a single request, or a function from requests to
responses for multi-call operations); thrown C++ exceptions become
`Except` errors; C++ `double` values become `Rat` (no floating-point
arithmetic is performed on them in the embedded code paths — they are
only stored, compared with 0, and formatted); C++ `unsigned long` hash
arithmetic becomes `Nat` arithmetic modulo 2^64.
-/

deriving instance DecidableEq for Except

namespace Drip

/-! ## JSON model (picojson values as used by the client) -/

/-- JSON values: strings, numbers, booleans, objects, arrays, null.
Objects are association lists in insertion order; the client only ever
looks fields up by key, so ordering is irrelevant to every claim. -/
inductive JVal where
  | str (s : String)
  | num (q : Rat)
  | jbool (b : Bool)
  | obj (fields : List (String × JVal))
  | arr (elems : List JVal)
  | null

/-- A parsed JSON object, as `picojson::object` is used by the client. -/
abbrev JObj := List (String × JVal)

/-- Key lookup in a JSON object (first matching field). -/
def jlookup : JObj → String → Option JVal
  | [], _ => none
  | (k, v) :: rest, key => if k = key then some v else jlookup rest key

/-- Embeds `json_string` (client.hpp:304): returns the field's string
value when present and a string, else the empty string. -/
def json_string (obj : JObj) (key : String) : String :=
  match jlookup obj key with
  | some (JVal.str s) => s
  | _ => ""

/-- Truncation of a rational toward zero, embedding C++
`static_cast<int>(double)`. -/
def rat_trunc (q : Rat) : Int :=
  if q < 0 then -(Int.floor (-q)) else Int.floor q

/-- Embeds `json_int` (client.hpp:312): the field's numeric value
truncated to int when present and a number, else the default. -/
def json_int (obj : JObj) (key : String) (def_ : Int) : Int :=
  match jlookup obj key with
  | some (JVal.num q) => rat_trunc q
  | _ => def_

/-- Embeds `json_double` (client.hpp:320). -/
def json_double (obj : JObj) (key : String) (def_ : Rat) : Rat :=
  match jlookup obj key with
  | some (JVal.num q) => q
  | _ => def_

/-- Embeds `json_bool` (client.hpp:328). -/
def json_bool (obj : JObj) (key : String) (def_ : Bool) : Bool :=
  match jlookup obj key with
  | some (JVal.jbool b) => b
  | _ => def_

/-- Embeds `json_arr` (client.hpp:342): the field's array value when
present and an array, else the empty array. -/
def json_arr (obj : JObj) (key : String) : List JVal :=
  match jlookup obj key with
  | some (JVal.arr a) => a
  | _ => []

/-- String-keyed metadata map (types.hpp:55), as an association list. -/
abbrev Metadata := List (String × String)

/-- Embeds `metadata_to_json` (client.hpp:279): every entry becomes a
string-valued JSON field. -/
def metadata_to_json (m : Metadata) : JVal :=
  JVal.obj (m.map fun kv => (kv.1, JVal.str kv.2))

/-! ## Error taxonomy (errors.hpp) -/

/-- The data every `DripError` carries (errors.hpp:12): message, HTTP
status code, and optional machine code. -/
structure DripErrorData where
  message : String
  status_code : Int
  code : String
deriving DecidableEq, Repr

/-- Embeds the `DripError` constructor (errors.hpp:14). -/
def DripError (message : String) (status_code : Int) (code : String) : DripErrorData :=
  ⟨message, status_code, code⟩

/-- Embeds `AuthenticationError` (errors.hpp:34): status 401, code
UNAUTHORIZED. -/
def AuthenticationError (message : String) : DripErrorData :=
  DripError message 401 "UNAUTHORIZED"

/-- Embeds `NotFoundError` (errors.hpp:44): status 404, code NOT_FOUND. -/
def NotFoundError (message : String) : DripErrorData :=
  DripError message 404 "NOT_FOUND"

/-- Embeds `RateLimitError` (errors.hpp:54): status 429, code
RATE_LIMITED. -/
def RateLimitError (message : String) : DripErrorData :=
  DripError message 429 "RATE_LIMITED"

/-- Embeds `TimeoutError` (errors.hpp:64): status 408, code TIMEOUT. -/
def TimeoutError (message : String) : DripErrorData :=
  DripError message 408 "TIMEOUT"

/-- Embeds `NetworkError` (errors.hpp:74): status 0, code NETWORK_ERROR. -/
def NetworkError (message : String) : DripErrorData :=
  DripError message 0 "NETWORK_ERROR"

/-! ## Core enumerations (types.hpp) -/

/-- Key scope (types.hpp:40). -/
inductive KeyType where
  | KEY_SECRET
  | KEY_PUBLIC
  | KEY_UNKNOWN
deriving DecidableEq, Repr

/-- Run status enumeration (types.hpp:134). -/
inductive RunStatus where
  | RUN_PENDING
  | RUN_RUNNING
  | RUN_COMPLETED
  | RUN_FAILED
  | RUN_CANCELLED
  | RUN_TIMEOUT
deriving DecidableEq, Repr

/-- Embeds `run_status_to_string` (types.hpp:146). -/
def run_status_to_string : RunStatus → String
  | RunStatus.RUN_PENDING => "PENDING"
  | RunStatus.RUN_RUNNING => "RUNNING"
  | RunStatus.RUN_COMPLETED => "COMPLETED"
  | RunStatus.RUN_FAILED => "FAILED"
  | RunStatus.RUN_CANCELLED => "CANCELLED"
  | RunStatus.RUN_TIMEOUT => "TIMEOUT"

/-- Embeds `run_status_from_string` (types.hpp:158): the six uppercase
tokens map to their statuses; anything else falls back to PENDING. -/
def run_status_from_string (s : String) : RunStatus :=
  if s = "PENDING" then RunStatus.RUN_PENDING
  else if s = "RUNNING" then RunStatus.RUN_RUNNING
  else if s = "COMPLETED" then RunStatus.RUN_COMPLETED
  else if s = "FAILED" then RunStatus.RUN_FAILED
  else if s = "CANCELLED" then RunStatus.RUN_CANCELLED
  else if s = "TIMEOUT" then RunStatus.RUN_TIMEOUT
  else RunStatus.RUN_PENDING

/-! ## Transport boundary and request pipeline (Client::Impl::request) -/

/-- Outcome of parsing the raw response body as JSON: either a parse
error (with picojson's error message) or a parsed value. -/
inductive ParseOutcome where
  | failed (err : String)
  | value (v : JVal)

/-- Outcome of one curl transfer, abstracting the transport:
initialization failure, a timeout (CURLE_OPERATION_TIMEDOUT), another
curl error (no response obtained), or an HTTP response carrying the
status code plus the parse outcome of its body. -/
inductive CurlOutcome where
  | initFailed
  | timedOut
  | curlFailed (err : String)
  | response (http_code : Int) (parse : ParseOutcome)

/-- Embeds `Client::Impl::request` (client.hpp:408-504), from the point
the transport outcome is known: timeout and curl failures become typed
errors at the boundary; 204 becomes a successful `{success: true}`;
a body that fails to parse (or is not a JSON object) raises PARSE_ERROR
carrying the original status; non-2xx statuses are classified into
Authentication/NotFound/RateLimit/generic errors with the message taken
from the body's `message` field, else `error` field, else a generated
string. -/
def request (o : CurlOutcome) : Except DripErrorData JObj :=
  match o with
  | CurlOutcome.initFailed => Except.error (NetworkError "Failed to initialize CURL")
  | CurlOutcome.timedOut => Except.error (TimeoutError "Request timed out")
  | CurlOutcome.curlFailed err =>
      Except.error (NetworkError ("CURL error: " ++ err))
  | CurlOutcome.response http_code parse =>
      if http_code = 204 then
        Except.ok [("success", JVal.jbool true)]
      else
        match parse with
        | ParseOutcome.failed err =>
            Except.error (DripError ("Failed to parse API response: " ++ err)
              http_code "PARSE_ERROR")
        | ParseOutcome.value v =>
            match v with
            | JVal.obj data =>
                if http_code < 200 ∨ 300 ≤ http_code then
                  let msg0 := json_string data "message"
                  let msg1 := if msg0 = "" then json_string data "error" else msg0
                  let msg := if msg1 = "" then
                      "Request failed with status " ++ toString http_code
                    else msg1
                  let code := json_string data "code"
                  if http_code = 401 then Except.error (AuthenticationError msg)
                  else if http_code = 404 then Except.error (NotFoundError msg)
                  else if http_code = 429 then Except.error (RateLimitError msg)
                  else Except.error (DripError msg http_code code)
                else
                  Except.ok data
            | _ =>
                Except.error (DripError "API response is not a JSON object"
                  http_code "PARSE_ERROR")

/-! ## Client configuration and construction (Client::Impl::Impl) -/

/-- Client configuration (types.hpp:24). -/
structure Config where
  api_key : String
  base_url : String
  timeout_ms : Int
deriving DecidableEq, Repr

/-- The fields of `Client::Impl` (client.hpp:365): resolved API key,
normalized base URL, effective timeout, detected key type. -/
structure ImplState where
  api_key : String
  base_url : String
  timeout_ms : Int
  key_type : KeyType
deriving DecidableEq, Repr

/-- The hard-coded production default base URL (client.hpp:198). -/
def DEFAULT_BASE_URL : String := "https://drip-app-hlunj.ondigitalocean.app/v1"

/-- Embeds `env_or` (client.hpp:251). The process environment is
modelled as a function from variable names to values, with the empty
string standing for an unset variable (the C++ code treats a set-but-
empty variable identically to an unset one). -/
def env_or (env : String → String) (name : String) (fallback : String) : String :=
  if env name = "" then fallback else env name

/-- The first three characters of a string (shorter strings are
returned whole), embedding C++ `substr(0, 3)` as the client uses it. -/
def first3 (s : String) : String :=
  String.mk (s.data.take 3)

/-- Removal of all trailing slashes from the base URL
(client.hpp:389-391). -/
def strip_trailing_slashes (s : String) : String :=
  String.mk ((s.data.reverse.dropWhile (fun c => c = '/')).reverse)

/-- Embeds the `Client::Impl` constructor (client.hpp:371-403): resolve
the API key from the config or the DRIP_API_KEY environment fallback,
failing construction with a NO_API_KEY configuration error (status 0)
when both are empty; resolve and normalize the base URL; force a
nonpositive configured timeout to 30000 ms; detect the key type from
the key's three-character prefix. No transport oracle is consumed: the
constructor performs no network call. -/
def Impl_init (env : String → String) (config : Config) : Except DripErrorData ImplState :=
  let api_key := if config.api_key = "" then env_or env "DRIP_API_KEY" "" else config.api_key
  if api_key = "" then
    Except.error (DripError
      "Drip API key is required. Either pass config.api_key or set DRIP_API_KEY."
      0 "NO_API_KEY")
  else
    let base_url0 := if config.base_url = "" then env_or env "DRIP_BASE_URL" DEFAULT_BASE_URL
      else config.base_url
    let base_url := strip_trailing_slashes base_url0
    let timeout_ms := if config.timeout_ms > 0 then config.timeout_ms else 30000
    let key_type := if first3 api_key = "sk_" then KeyType.KEY_SECRET
      else if first3 api_key = "pk_" then KeyType.KEY_PUBLIC
      else KeyType.KEY_UNKNOWN
    Except.ok ⟨api_key, base_url, timeout_ms, key_type⟩

/-! ## Idempotency key generation (client.hpp:219-246) -/

/-- Formatting of a C++ `double` by `std::ostringstream`, abstracted:
an integral value prints as its integer digits (as C++ does for the
magnitudes exercised here); other rationals are rendered via `toString`.
No theorem below depends on the concrete rendering — only on this being
a function of the value. -/
def fmt_double (q : Rat) : String :=
  if q.den = 1 then toString q.num else toString q

/-- The djb2 rolling hash over the input's characters with 64-bit
unsigned wraparound (client.hpp:229-232). Characters stand for the
string's bytes (they coincide on the ASCII inputs the client builds). -/
def djb2 (s : String) : Nat :=
  s.data.foldl (fun h c => (h * 33 + c.toNat) % 2 ^ 64) 5381

/-- Embeds `make_idempotency_key` (client.hpp:219): concatenate
`pfx:a:b:c`, hash with djb2, and render as `pfx_<hex>`. -/
def make_idempotency_key (pfx : String) (a : String) (b : String) (c : Rat) : String :=
  let input := pfx ++ ":" ++ a ++ ":" ++ b ++ ":" ++ fmt_double c
  pfx ++ "_" ++ String.mk (Nat.toDigits 16 (djb2 input))

/-- Embeds `make_idempotency_key_int` (client.hpp:239). -/
def make_idempotency_key_int (pfx : String) (a : String) (b : String) (c : Int) : String :=
  make_idempotency_key pfx a b (c : Rat)

/-! ## trackUsage (client.hpp:658-685) -/

/-- Parameters of `trackUsage` (types.hpp:110). -/
structure TrackUsageParams where
  customer_id : String
  meter : String
  quantity : Rat
  idempotency_key : String
  units : String
  description : String
  metadata : Metadata

/-- The idempotency key `trackUsage` sends: the caller-supplied key
when non-empty, else the generator seeded with "track", the customer
id, the meter, and the quantity (client.hpp:659-662). -/
def track_usage_idem_key (p : TrackUsageParams) : String :=
  if p.idempotency_key = "" then
    make_idempotency_key "track" p.customer_id p.meter p.quantity
  else p.idempotency_key

/-- The JSON body `trackUsage` posts to /usage/internal
(client.hpp:664-672): required fields plus the optional fields included
only when non-empty. -/
def track_usage_body (p : TrackUsageParams) : JObj :=
  [("customerId", JVal.str p.customer_id),
   ("usageType", JVal.str p.meter),
   ("quantity", JVal.num p.quantity),
   ("idempotencyKey", JVal.str (track_usage_idem_key p))]
  ++ (if p.units ≠ "" then [("units", JVal.str p.units)] else [])
  ++ (if p.description ≠ "" then [("description", JVal.str p.description)] else [])
  ++ (if p.metadata ≠ [] then [("metadata", metadata_to_json p.metadata)] else [])

/-! ## ping (client.hpp:619-652) -/

/-- Health-check result (types.hpp:99). -/
structure PingResult where
  ok : Bool
  status : String
  latency_ms : Int
  timestamp : Int
deriving DecidableEq, Repr

/-- Removal of the trailing "/v1" API-version segment from the base URL
(client.hpp:622-626). -/
def strip_v1_suffix (s : String) : String :=
  if 3 ≤ s.data.length ∧ String.mk (s.data.drop (s.data.length - 3)) = "/v1" then
    String.mk (s.data.take (s.data.length - 3))
  else s

/-- Embeds `Client::ping` (client.hpp:619-652) as a state transformer:
derive the health URL by stripping "/v1", swap it in as the base URL
for the single GET /health call (whose transport outcome is the oracle
`o`), and restore the saved base URL on both the success path and the
exception path before returning. Wall-clock reads are abstracted as
the `elapsed` and `now` parameters. -/
def ping (st : ImplState) (o : CurlOutcome) (elapsed : Int) (now : Int) :
    Except DripErrorData PingResult × ImplState :=
  let health_url := strip_v1_suffix st.base_url
  let saved_base := st.base_url
  let st1 : ImplState := { st with base_url := health_url }
  match request o with
  | Except.error e => (Except.error e, { st1 with base_url := saved_base })
  | Except.ok data =>
      let status0 := json_string data "status"
      let status := if status0 = "" then "healthy" else status0
      let ts := rat_trunc (json_double data "timestamp" ((now * 1000 : Int) : Rat))
      (Except.ok ⟨status = "healthy", status, elapsed, ts⟩,
       { st1 with base_url := saved_base })

/-! ## Run types (types.hpp:168-283) -/

/-- Parameters of `startRun` (types.hpp:168). -/
structure StartRunParams where
  customer_id : String
  workflow_id : String
  external_run_id : String
  correlation_id : String
  parent_run_id : String
  metadata : Metadata

/-- Result of `startRun` (types.hpp:177). -/
structure RunResult where
  id : String
  customer_id : String
  workflow_id : String
  workflow_name : String
  status : RunStatus
  correlation_id : String
  created_at : String

/-- Parameters of `endRun` (types.hpp:187). -/
structure EndRunParams where
  status : RunStatus
  error_message : String
  error_code : String
  metadata : Metadata

/-- Result of `endRun` (types.hpp:194). -/
structure EndRunResult where
  id : String
  status : RunStatus
  ended_at : String
  duration_ms : Int
  event_count : Int
  total_cost_units : String

/-- One event passed to `recordRun` (types.hpp:237). -/
structure RecordRunEvent where
  event_type : String
  quantity : Rat
  units : String
  description : String
  cost_units : Rat
  metadata : Metadata
deriving DecidableEq

/-- Parameters of `recordRun` (types.hpp:251). -/
structure RecordRunParams where
  customer_id : String
  workflow : String
  events : List RecordRunEvent
  status : RunStatus
  error_message : String
  error_code : String
  external_run_id : String
  correlation_id : String
  metadata : Metadata

/-- The `run` sub-struct of `RecordRunResult` (types.hpp:268). -/
structure RecordRunResultRun where
  id : String
  workflow_id : String
  workflow_name : String
  status : RunStatus
  duration_ms : Int

/-- The `events` sub-struct of `RecordRunResult` (types.hpp:276). -/
structure RecordRunResultEvents where
  created : Int
  duplicates : Int

/-- Result of `recordRun` (types.hpp:267). -/
structure RecordRunResult where
  run : RecordRunResultRun
  events : RecordRunResultEvents
  total_cost_units : String
  summary : String

/-! ## HTTP requests as data, and per-operation request builders -/

/-- One HTTP request issued through `Client::Impl::request`: method,
server-relative path, and JSON body (the empty object for GET). -/
structure HttpReq where
  method : String
  path : String
  body : JObj

/-- An API oracle: the typed outcome the request pipeline produces for
each request a multi-call operation issues. `Except.error` stands for a
thrown exception. -/
abbrev Api := HttpReq → Except DripErrorData JObj

/-- The GET /workflows listing request issued by `recordRun` step 1
(client.hpp:777). -/
def workflows_list_req : HttpReq := ⟨"GET", "/workflows", []⟩

/-- Derivation of a workflow display name (client.hpp:795-807):
replace underscores and hyphens with spaces, then capitalize the first
letter of each word, with `cap_next` recomputed from the character
after any capitalization. -/
def display_name_of (w : String) : String :=
  let spaced := w.data.map fun c => if c = '_' ∨ c = '-' then ' ' else c
  let folded := spaced.foldl
    (fun (acc : List Char × Bool) c =>
      let c2 := if acc.2 ∧ 'a' ≤ c ∧ c ≤ 'z' then
          Char.ofNat (c.toNat - 'a'.toNat + 'A'.toNat)
        else c
      (acc.1 ++ [c2], c2 = ' '))
    ([], true)
  String.mk folded.1

/-- The POST /workflows creation request issued by `recordRun` step 1
on no match (client.hpp:809-814). -/
def create_workflow_req (w : String) : HttpReq :=
  ⟨"POST", "/workflows",
   [("name", JVal.str (display_name_of w)),
    ("slug", JVal.str w),
    ("productSurface", JVal.str "CUSTOM")]⟩

/-- The first workflow object in the listing whose `slug` or `id`
field equals the supplied string, skipping non-object elements
(client.hpp:780-792). -/
def find_workflow (arr : List JVal) (w : String) : Option JObj :=
  arr.findSome? fun v =>
    match v with
    | JVal.obj wf =>
        if json_string wf "slug" = w ∨ json_string wf "id" = w then some wf else none
    | _ => none

/-- Embeds `recordRun` step 1 (client.hpp:771-821): when the supplied
workflow already carries the `wf_` server-id prefix it is used
directly; otherwise list workflows and match by slug or id; on no
match create the workflow; any error from the listing or the creation
is caught and the original workflow string is used as the resolved id.
Returns (resolved id, display name) together with the requests issued. -/
def resolve_workflow (api : Api) (w : String) : (String × String) × List HttpReq :=
  if first3 w = "wf_" then ((w, w), [])
  else
    match api workflows_list_req with
    | Except.error _ => ((w, w), [workflows_list_req])
    | Except.ok workflows =>
        match find_workflow (json_arr workflows "data") w with
        | some wf =>
            ((json_string wf "id", json_string wf "name"), [workflows_list_req])
        | none =>
            let req := create_workflow_req w
            match api req with
            | Except.error _ => ((w, w), [workflows_list_req, req])
            | Except.ok created =>
                ((json_string created "id", json_string created "name"),
                 [workflows_list_req, req])

/-- The JSON body `startRun` posts to /runs (client.hpp:692-699):
required fields plus optional fields included only when non-empty. -/
def start_run_body (p : StartRunParams) : JObj :=
  [("customerId", JVal.str p.customer_id),
   ("workflowId", JVal.str p.workflow_id)]
  ++ (if p.external_run_id ≠ "" then [("externalRunId", JVal.str p.external_run_id)] else [])
  ++ (if p.correlation_id ≠ "" then [("correlationId", JVal.str p.correlation_id)] else [])
  ++ (if p.parent_run_id ≠ "" then [("parentRunId", JVal.str p.parent_run_id)] else [])
  ++ (if p.metadata ≠ [] then [("metadata", metadata_to_json p.metadata)] else [])

/-- The POST /runs request `startRun` issues (client.hpp:701). -/
def start_run_req (p : StartRunParams) : HttpReq :=
  ⟨"POST", "/runs", start_run_body p⟩

/-- Parsing of the /runs response into a `RunResult`
(client.hpp:703-711). -/
def parse_run (data : JObj) : RunResult :=
  ⟨json_string data "id",
   json_string data "customerId",
   json_string data "workflowId",
   json_string data "workflowName",
   run_status_from_string (json_string data "status"),
   json_string data "correlationId",
   json_string data "createdAt"⟩

/-- The `StartRunParams` that `recordRun` step 2 builds from its own
parameters and the resolved workflow id (client.hpp:824-829);
`parent_run_id` is left at its default empty value. -/
def mk_run_params (params : RecordRunParams) (workflow_id : String) : StartRunParams :=
  ⟨params.customer_id, workflow_id, params.external_run_id,
   params.correlation_id, "", params.metadata⟩

/-- The JSON object for one batch event (client.hpp:841-861): runId and
eventType always; quantity/units/description/costUnits/metadata only
when non-default; the idempotency key from `external_run_id:type:index`
when an external run id was given, else from the generator seeded with
the run id, event type, and index. -/
def record_event_json (params : RecordRunParams) (run_id : String)
    (i : Nat) (evt : RecordRunEvent) : JObj :=
  [("runId", JVal.str run_id),
   ("eventType", JVal.str evt.event_type)]
  ++ (if evt.quantity ≠ 0 then [("quantity", JVal.num evt.quantity)] else [])
  ++ (if evt.units ≠ "" then [("units", JVal.str evt.units)] else [])
  ++ (if evt.description ≠ "" then [("description", JVal.str evt.description)] else [])
  ++ (if evt.cost_units ≠ 0 then [("costUnits", JVal.num evt.cost_units)] else [])
  ++ (if evt.metadata ≠ [] then [("metadata", metadata_to_json evt.metadata)] else [])
  ++ [("idempotencyKey", JVal.str
        (if params.external_run_id ≠ "" then
          params.external_run_id ++ ":" ++ evt.event_type ++ ":" ++ toString i
        else make_idempotency_key_int "run" run_id evt.event_type (Int.ofNat i)))]

/-- The POST /run-events/batch request `recordRun` step 3 issues
(client.hpp:864-867). -/
def batch_req (params : RecordRunParams) (run_id : String) : HttpReq :=
  ⟨"POST", "/run-events/batch",
   [("events", JVal.arr (params.events.enum.map
      fun p => JVal.obj (record_event_json params run_id p.1 p.2)))]⟩

/-- The `EndRunParams` that `recordRun` step 4 builds
(client.hpp:873-876); metadata is left at its default empty value. -/
def mk_end_params (params : RecordRunParams) : EndRunParams :=
  ⟨params.status, params.error_message, params.error_code, []⟩

/-- The JSON body `endRun` patches to /runs/{id} (client.hpp:715-720). -/
def end_run_body (p : EndRunParams) : JObj :=
  [("status", JVal.str (run_status_to_string p.status))]
  ++ (if p.error_message ≠ "" then [("errorMessage", JVal.str p.error_message)] else [])
  ++ (if p.error_code ≠ "" then [("errorCode", JVal.str p.error_code)] else [])
  ++ (if p.metadata ≠ [] then [("metadata", metadata_to_json p.metadata)] else [])

/-- The PATCH /runs/{id} request `endRun` issues (client.hpp:722). -/
def end_run_req (run_id : String) (p : EndRunParams) : HttpReq :=
  ⟨"PATCH", "/runs/" ++ run_id, end_run_body p⟩

/-- Parsing of the /runs/{id} PATCH response into an `EndRunResult`
(client.hpp:724-731). -/
def parse_end_run (data : JObj) : EndRunResult :=
  ⟨json_string data "id",
   run_status_from_string (json_string data "status"),
   json_string data "endedAt",
   json_int data "durationMs" 0,
   json_int data "eventCount" 0,
   json_string data "totalCostUnits"⟩

/-- Embeds `recordRun` steps 4 and 5 (client.hpp:872-904): end the run
(fatal on error) and compose the result with the human-readable summary
line. `trace` is the list of requests issued so far. -/
def finish_run (api : Api) (params : RecordRunParams)
    (workflow_id : String) (workflow_name : String) (run : RunResult)
    (events_created : Int) (events_duplicates : Int)
    (trace : List HttpReq) (start_time : Int) (end_time : Int) :
    Except DripErrorData RecordRunResult × List HttpReq :=
  let ereq := end_run_req run.id (mk_end_params params)
  match api ereq with
  | Except.error e => (Except.error e, trace ++ [ereq])
  | Except.ok end_data =>
      let end_result := parse_end_run end_data
      let total_ms := end_time - start_time
      let display_ms := if end_result.duration_ms > 0 then end_result.duration_ms else total_ms
      let status_icon := if params.status = RunStatus.RUN_COMPLETED then "[OK]"
        else if params.status = RunStatus.RUN_FAILED then "[FAIL]"
        else "[--]"
      let summary := status_icon ++ " " ++ workflow_name ++ ": "
        ++ toString events_created ++ " events recorded (" ++ toString display_ms ++ "ms)"
      (Except.ok
        ⟨⟨run.id, workflow_id, workflow_name, params.status, end_result.duration_ms⟩,
         ⟨events_created, events_duplicates⟩,
         end_result.total_cost_units,
         summary⟩,
       trace ++ [ereq])

/-- Embeds `Client::recordRun` (client.hpp:768-905): resolve the
workflow (step 1, never fatal), create the run (step 2, fatal on
error), batch-emit the events only when the event list is non-empty
(step 3, fatal on error), end the run and summarize (steps 4-5).
Returns the outcome together with the full trace of requests issued.
Wall-clock reads are abstracted as `start_time` and `end_time`. -/
def recordRun (api : Api) (params : RecordRunParams)
    (start_time : Int) (end_time : Int) :
    Except DripErrorData RecordRunResult × List HttpReq :=
  let res := resolve_workflow api params.workflow
  let workflow_id := res.1.1
  let workflow_name := res.1.2
  let trace0 := res.2
  let rreq := start_run_req (mk_run_params params workflow_id)
  match api rreq with
  | Except.error e => (Except.error e, trace0 ++ [rreq])
  | Except.ok run_data =>
      let run := parse_run run_data
      if params.events = [] then
        finish_run api params workflow_id workflow_name run 0 0
          (trace0 ++ [rreq]) start_time end_time
      else
        let breq := batch_req params run.id
        match api breq with
        | Except.error e => (Except.error e, trace0 ++ [rreq, breq])
        | Except.ok batch_result =>
            finish_run api params workflow_id workflow_name run
              (json_int batch_result "created" 0)
              (json_int batch_result "duplicates" 0)
              (trace0 ++ [rreq, breq]) start_time end_time

/-- The run-creation request `recordRun` issues: the start-run request
built from the orchestrator's parameters and the resolved workflow id. -/
def rr_start_req (api : Api) (params : RecordRunParams) : HttpReq :=
  start_run_req (mk_run_params params (resolve_workflow api params.workflow).1.1)

/-- The run-end request `recordRun` issues for the run whose creation
response was `run_data`. -/
def rr_end_req (params : RecordRunParams) (run_data : JObj) : HttpReq :=
  end_run_req (parse_run run_data).id (mk_end_params params)

/-! ## Concrete fixtures used by the witness theorems -/

/-- An API oracle for which every request fails with a network error. -/
def api_fail : Api := fun _ => Except.error (NetworkError "connection refused")

/-- An API oracle for which every request succeeds with a minimal
object carrying an id. -/
def api_ok_run : Api := fun _ => Except.ok [("id", JVal.str "run_1")]

/-- Concrete `recordRun` parameters with an empty event list and a
workflow slug that does not carry the server-id prefix. -/
def params_empty_events : RecordRunParams :=
  ⟨"cus_1", "my-flow", [], RunStatus.RUN_COMPLETED, "", "", "", "", []⟩

/-! ## Helper lemmas -/

/-- The final client state after `ping` always equals the initial
state: the base URL is restored on the success path and on the
exception path, and no other field is written. -/
theorem ping_state_eq (st : ImplState) (o : CurlOutcome) (elapsed : Int) (now : Int) :
    (ping st o elapsed now).2 = st := by
  unfold ping
  cases request o <;> rfl

/-- The trace of `finish_run` is the incoming trace extended with
exactly the run-end request, on both the success and the error path. -/
theorem finish_run_trace (api : Api) (params : RecordRunParams)
    (wid : String) (wname : String) (run : RunResult) (c : Int) (d : Int)
    (trace : List HttpReq) (t0 : Int) (t1 : Int) :
    (finish_run api params wid wname run c d trace t0 t1).2
      = trace ++ [end_run_req run.id (mk_end_params params)] := by
  unfold finish_run
  cases h : api (end_run_req run.id (mk_end_params params)) <;> simp [h]

/-- Every request issued during workflow resolution is the listing
request or the creation request. -/
theorem resolve_trace_shape (api : Api) (w : String) :
    ∀ req ∈ (resolve_workflow api w).2,
      req = workflows_list_req ∨ req = create_workflow_req w := by
  intro req hreq
  by_cases hw : first3 w = "wf_"
  · simp [resolve_workflow, hw] at hreq
  · cases hl : api workflows_list_req with
    | error e =>
        simp [resolve_workflow, hw, hl] at hreq
        simp [hreq]
    | ok wfs =>
        cases hf : find_workflow (json_arr wfs "data") w with
        | some wf =>
            simp [resolve_workflow, hw, hl, hf] at hreq
            simp [hreq]
        | none =>
            cases hc : api (create_workflow_req w) with
            | error e =>
                simp [resolve_workflow, hw, hl, hf, hc] at hreq
                rcases hreq with h | h <;> simp [h]
            | ok created =>
                simp [resolve_workflow, hw, hl, hf, hc] at hreq
                rcases hreq with h | h <;> simp [h]

/-- The run-creation request (built from the resolved workflow id) is
always issued by `recordRun`, whatever the outcomes of the later
calls. -/
theorem run_req_issued (api : Api) (params : RecordRunParams) (t0 : Int) (t1 : Int) :
    start_run_req (mk_run_params params (resolve_workflow api params.workflow).1.1)
      ∈ (recordRun api params t0 t1).2 := by
  cases hr : api (start_run_req (mk_run_params params (resolve_workflow api params.workflow).1.1)) with
  | error e => simp [recordRun, hr]
  | ok run_data =>
      by_cases hev : params.events = []
      · simp [recordRun, hr, hev, finish_run_trace]
      · cases hb : api (batch_req params (parse_run run_data).id) with
        | error e => simp [recordRun, hr, hev, hb]
        | ok b => simp [recordRun, hr, hev, hb, finish_run_trace]

/-- The idempotency key field of the body `trackUsage` sends equals the
selected key (caller-supplied or generated). -/
theorem track_usage_wire_key (p : TrackUsageParams) :
    json_string (track_usage_body p) "idempotencyKey" = track_usage_idem_key p := by
  simp [track_usage_body, json_string, jlookup]

/-! ## Claim theorems -/

/-- C1 counterexample: the claim says every transport-local failure
(timeout included) carries HTTP status 0, but a request timeout raises
a typed error whose status field is 408, not 0. -/
theorem timeout_status_counterexample :
    request CurlOutcome.timedOut
      = Except.error { message := "Request timed out", status_code := 408, code := "TIMEOUT" } ∧
    ¬ ((408 : Int) = 0) := ⟨rfl, by decide⟩

/-- C1 (amended): a network failure where no response was obtained
(curl error or curl initialization failure) raises a typed error with
HTTP status 0, while a request timeout raises a typed error with HTTP
status 408 and code TIMEOUT, for every operation of the client (all
operations share this transport boundary). -/
theorem transport_local_error_statuses :
    (∀ err, request (CurlOutcome.curlFailed err)
        = Except.error (NetworkError ("CURL error: " ++ err)) ∧
      (NetworkError ("CURL error: " ++ err)).status_code = 0) ∧
    (request CurlOutcome.initFailed
        = Except.error (NetworkError "Failed to initialize CURL") ∧
      (NetworkError "Failed to initialize CURL").status_code = 0) ∧
    (request CurlOutcome.timedOut
        = Except.error (TimeoutError "Request timed out") ∧
      (TimeoutError "Request timed out").status_code = 408 ∧
      (TimeoutError "Request timed out").code = "TIMEOUT") :=
  ⟨fun _ => ⟨rfl, rfl⟩, ⟨rfl, rfl⟩, rfl, rfl, rfl⟩

/-- C3: after every ping call — returning a result or propagating an
error — the client's stored base URL equals its pre-call value, and no
other configuration field (API key, timeout, key type) is modified:
the whole post-call state equals the pre-call state. -/
theorem ping_restores_configuration (st : ImplState) (o : CurlOutcome)
    (elapsed : Int) (now : Int) :
    ((ping st o elapsed now).2.base_url = st.base_url) ∧
    (ping st o elapsed now).2 = st :=
  ⟨by rw [ping_state_eq], ping_state_eq st o elapsed now⟩

/-- C8: `run_status_from_string` maps any string outside the six
uppercase tokens to PENDING, and round-trips each of the six statuses
through `run_status_to_string`. -/
theorem run_status_fallback_roundtrip (s : String)
    (h : s ∉ ["PENDING", "RUNNING", "COMPLETED", "FAILED", "CANCELLED", "TIMEOUT"]) :
    run_status_from_string s = RunStatus.RUN_PENDING ∧
    ∀ st : RunStatus, run_status_from_string (run_status_to_string st) = st := by
  constructor
  · simp only [List.mem_cons, List.not_mem_nil, or_false, not_or] at h
    obtain ⟨h1, h2, h3, h4, h5, h6⟩ := h
    simp [run_status_from_string, h1, h2, h3, h4, h5, h6]
  · intro st
    cases st <;> decide

/-- C8 witness: the fallback and the round-trip at the concrete
unrecognized string "garbage". -/
theorem run_status_fallback_roundtrip_witness :
    "garbage" ∉ ["PENDING", "RUNNING", "COMPLETED", "FAILED", "CANCELLED", "TIMEOUT"] ∧
    (run_status_from_string "garbage" = RunStatus.RUN_PENDING ∧
      ∀ st : RunStatus, run_status_from_string (run_status_to_string st) = st) :=
  ⟨by decide, run_status_fallback_roundtrip "garbage" (by decide)⟩

/-- C4: a response with status outside [200,300) whose body parses as a
JSON object raises AuthenticationError for 401, NotFoundError for 404,
RateLimitError for 429, and otherwise a generic error carrying that
status and the body's `code` field; the message is the body's `message`
field, else its `error` field, else the generated
"Request failed with status N" string. -/
theorem http_error_classification (status : Int) (data : JObj)
    (h : status < 200 ∨ 300 ≤ status) :
    ∃ e, request (CurlOutcome.response status (ParseOutcome.value (JVal.obj data)))
        = Except.error e ∧
      e.message = (if json_string data "message" ≠ "" then json_string data "message"
        else if json_string data "error" ≠ "" then json_string data "error"
        else "Request failed with status " ++ toString status) ∧
      (status = 401 → e = AuthenticationError e.message) ∧
      (status = 404 → e = NotFoundError e.message) ∧
      (status = 429 → e = RateLimitError e.message) ∧
      (status ≠ 401 → status ≠ 404 → status ≠ 429 →
        e.status_code = status ∧ e.code = json_string data "code") := by
  have h204 : ¬ status = 204 := by rcases h with h' | h' <;> omega
  set m0 := json_string data "message" with hm0
  set m1 := json_string data "error" with hm1
  set c0 := json_string data "code" with hc0
  set gen := "Request failed with status " ++ toString status with hgen
  set M := (if m0 ≠ "" then m0 else if m1 ≠ "" then m1 else gen) with hM
  have hmsg : (if (if m0 = "" then m1 else m0) = "" then gen else (if m0 = "" then m1 else m0))
      = M := by
    by_cases h0 : m0 = "" <;> by_cases h1 : m1 = "" <;> simp [h0, h1, hM]
  have hreq : request (CurlOutcome.response status (ParseOutcome.value (JVal.obj data)))
      = (if status = 401 then Except.error (AuthenticationError M)
        else if status = 404 then Except.error (NotFoundError M)
        else if status = 429 then Except.error (RateLimitError M)
        else Except.error (DripError M status c0)) := by
    simp only [request]
    rw [if_neg h204, if_pos h, ← hm0, ← hm1, ← hc0, ← hgen, hmsg]
  by_cases h401 : status = 401
  · subst h401
    rw [if_pos rfl] at hreq
    refine ⟨AuthenticationError M, hreq, rfl, fun _ => rfl, ?_, ?_, ?_⟩
    · intro hx; exact absurd hx (by decide)
    · intro hx; exact absurd hx (by decide)
    · intro hx; exact absurd rfl hx
  · by_cases h404 : status = 404
    · subst h404
      rw [if_neg h401, if_pos rfl] at hreq
      refine ⟨NotFoundError M, hreq, rfl, ?_, fun _ => rfl, ?_, ?_⟩
      · intro hx; exact absurd hx (by decide)
      · intro hx; exact absurd hx (by decide)
      · intro _ hx; exact absurd rfl hx
    · by_cases h429 : status = 429
      · subst h429
        rw [if_neg h401, if_neg h404, if_pos rfl] at hreq
        refine ⟨RateLimitError M, hreq, rfl, ?_, ?_, fun _ => rfl, ?_⟩
        · intro hx; exact absurd hx (by decide)
        · intro hx; exact absurd hx (by decide)
        · intro _ _ hx; exact absurd rfl hx
      · rw [if_neg h401, if_neg h404, if_neg h429] at hreq
        refine ⟨DripError M status c0, hreq, rfl, ?_, ?_, ?_, fun _ _ _ => ⟨rfl, rfl⟩⟩
        · intro hx; exact absurd hx h401
        · intro hx; exact absurd hx h404
        · intro hx; exact absurd hx h429

/-- C4 witness: a concrete 500 response whose body has an `error`
message and a `code` field is classified as a generic error with that
status, code, and message. -/
theorem http_error_classification_witness :
    ((500 : Int) < 200 ∨ (300 : Int) ≤ 500) ∧
    (∃ e, request (CurlOutcome.response 500
          (ParseOutcome.value (JVal.obj [("error", JVal.str "boom"), ("code", JVal.str "ERR")])))
        = Except.error e ∧
      e.message = (if json_string [("error", JVal.str "boom"), ("code", JVal.str "ERR")] "message" ≠ ""
          then json_string [("error", JVal.str "boom"), ("code", JVal.str "ERR")] "message"
        else if json_string [("error", JVal.str "boom"), ("code", JVal.str "ERR")] "error" ≠ ""
          then json_string [("error", JVal.str "boom"), ("code", JVal.str "ERR")] "error"
        else "Request failed with status " ++ toString (500 : Int)) ∧
      ((500 : Int) = 401 → e = AuthenticationError e.message) ∧
      ((500 : Int) = 404 → e = NotFoundError e.message) ∧
      ((500 : Int) = 429 → e = RateLimitError e.message) ∧
      ((500 : Int) ≠ 401 → (500 : Int) ≠ 404 → (500 : Int) ≠ 429 →
        e.status_code = 500 ∧
          e.code = json_string [("error", JVal.str "boom"), ("code", JVal.str "ERR")] "code")) :=
  ⟨Or.inr (by decide),
   http_error_classification 500 [("error", JVal.str "boom"), ("code", JVal.str "ERR")]
     (Or.inr (by decide))⟩

/-- C5: a response with status other than 204 whose body fails to parse
as JSON raises an error carrying the original HTTP status and the
PARSE_ERROR classification, and is never returned as a successful
result — for any status, including 2xx. -/
theorem parse_failure_is_error (status : Int) (err : String) (h : status ≠ 204) :
    request (CurlOutcome.response status (ParseOutcome.failed err))
      = Except.error (DripError ("Failed to parse API response: " ++ err) status "PARSE_ERROR") ∧
    ∀ data, request (CurlOutcome.response status (ParseOutcome.failed err)) ≠ Except.ok data := by
  have h1 : request (CurlOutcome.response status (ParseOutcome.failed err))
      = Except.error (DripError ("Failed to parse API response: " ++ err) status "PARSE_ERROR") := by
    simp only [request]
    rw [if_neg h]
  refine ⟨h1, fun data hc => ?_⟩
  rw [h1] at hc
  exact Except.noConfusion hc

/-- C5 witness: a 200 response with an unparseable body is an error
(status 200, code PARSE_ERROR), not a success. -/
theorem parse_failure_is_error_witness :
    ((200 : Int) ≠ 204) ∧
    (request (CurlOutcome.response 200 (ParseOutcome.failed "unexpected token"))
        = Except.error (DripError ("Failed to parse API response: " ++ "unexpected token")
            200 "PARSE_ERROR") ∧
      ∀ data, request (CurlOutcome.response 200 (ParseOutcome.failed "unexpected token"))
          ≠ Except.ok data) :=
  ⟨by decide, parse_failure_is_error 200 "unexpected token" (by decide)⟩

/-- C6: constructing a client whose configured API key is empty, when
the DRIP_API_KEY environment fallback is also empty, fails at
construction time with a configuration error carrying code NO_API_KEY
and HTTP status 0, and never yields a constructed client state. The
constructor consumes no transport oracle, so no network call is
involved and the failure cannot be deferred to a later operation. -/
theorem construction_fails_without_api_key (env : String → String) (config : Config)
    (hc : config.api_key = "") (he : env "DRIP_API_KEY" = "") :
    Impl_init env config = Except.error (DripError
      "Drip API key is required. Either pass config.api_key or set DRIP_API_KEY."
      0 "NO_API_KEY") ∧
    (DripError "Drip API key is required. Either pass config.api_key or set DRIP_API_KEY."
      0 "NO_API_KEY").status_code = 0 ∧
    ∀ st, Impl_init env config ≠ Except.ok st := by
  have h1 : Impl_init env config = Except.error (DripError
      "Drip API key is required. Either pass config.api_key or set DRIP_API_KEY."
      0 "NO_API_KEY") := by
    simp [Impl_init, hc, he, env_or]
  refine ⟨h1, rfl, fun st hst => ?_⟩
  rw [h1] at hst
  exact Except.noConfusion hst

/-- C6 witness: the concrete empty configuration against an empty
environment fails construction with NO_API_KEY. -/
theorem construction_fails_without_api_key_witness :
    ((⟨"", "", 30000⟩ : Config).api_key = "") ∧
    ((fun _ => "") "DRIP_API_KEY" = "") ∧
    (Impl_init (fun _ => "") ⟨"", "", 30000⟩ = Except.error (DripError
        "Drip API key is required. Either pass config.api_key or set DRIP_API_KEY."
        0 "NO_API_KEY") ∧
      (DripError "Drip API key is required. Either pass config.api_key or set DRIP_API_KEY."
        0 "NO_API_KEY").status_code = 0 ∧
      ∀ st, Impl_init (fun _ => "") (⟨"", "", 30000⟩ : Config) ≠ Except.ok st) :=
  ⟨rfl, rfl, construction_fails_without_api_key (fun _ => "") ⟨"", "", 30000⟩ rfl rfl⟩

/-- When the run-creation call fails, `recordRun` propagates the error
and its trace is the resolution trace plus the run-creation request. -/
theorem recordRun_start_error (api : Api) (params : RecordRunParams)
    (t0 : Int) (t1 : Int) (e : DripErrorData)
    (hr : api (rr_start_req api params) = Except.error e) :
    recordRun api params t0 t1
      = (Except.error e, (resolve_workflow api params.workflow).2 ++ [rr_start_req api params]) := by
  simp only [rr_start_req] at hr
  simp [recordRun, rr_start_req, hr]

/-- When the run-creation call succeeds and the event list is empty,
`recordRun` reduces to `finish_run` with zero counts and no batch
request. -/
theorem recordRun_empty_events (api : Api) (params : RecordRunParams)
    (t0 : Int) (t1 : Int) (run_data : JObj) (h : params.events = [])
    (hr : api (rr_start_req api params) = Except.ok run_data) :
    recordRun api params t0 t1
      = finish_run api params (resolve_workflow api params.workflow).1.1
          (resolve_workflow api params.workflow).1.2 (parse_run run_data) 0 0
          ((resolve_workflow api params.workflow).2 ++ [rr_start_req api params]) t0 t1 := by
  simp only [rr_start_req] at hr
  simp [recordRun, rr_start_req, hr, h]

/-- When the run-end call fails, `finish_run` propagates the error. -/
theorem finish_run_error (api : Api) (params : RecordRunParams)
    (wid : String) (wname : String) (run : RunResult) (c : Int) (d : Int)
    (trace : List HttpReq) (t0 : Int) (t1 : Int) (e : DripErrorData)
    (hend : api (end_run_req run.id (mk_end_params params)) = Except.error e) :
    (finish_run api params wid wname run c d trace t0 t1).1 = Except.error e := by
  simp [finish_run, hend]

/-- When the run-end call succeeds, `finish_run` succeeds and its
result carries the created/duplicates counts it was given. -/
theorem finish_run_ok (api : Api) (params : RecordRunParams)
    (wid : String) (wname : String) (run : RunResult) (c : Int) (d : Int)
    (trace : List HttpReq) (t0 : Int) (t1 : Int) (end_data : JObj)
    (hend : api (end_run_req run.id (mk_end_params params)) = Except.ok end_data) :
    ∃ r, (finish_run api params wid wname run c d trace t0 t1).1 = Except.ok r ∧
      r.events.created = c ∧ r.events.duplicates = d := by
  simp [finish_run, hend]

/-- C2: when the workflow argument does not start with the `wf_`
server-id prefix and the resolution step fails — the workflow listing
errors, or it succeeds without a match and the workflow creation
errors — the error is swallowed, the original workflow string becomes
the resolved workflow id, and `recordRun` still issues the
run-creation request built from it: workflow resolution never aborts
`recordRun`. -/
theorem workflow_resolution_never_aborts (api : Api) (params : RecordRunParams)
    (t0 : Int) (t1 : Int) (hw : first3 params.workflow ≠ "wf_")
    (hfail : (∃ e, api workflows_list_req = Except.error e) ∨
      (∃ wfs e, api workflows_list_req = Except.ok wfs ∧
        find_workflow (json_arr wfs "data") params.workflow = none ∧
        api (create_workflow_req params.workflow) = Except.error e)) :
    (resolve_workflow api params.workflow).1.1 = params.workflow ∧
    start_run_req (mk_run_params params params.workflow)
      ∈ (recordRun api params t0 t1).2 := by
  have hres : (resolve_workflow api params.workflow).1.1 = params.workflow := by
    rcases hfail with ⟨e, he⟩ | ⟨wfs, e, h1, h2, h3⟩
    · simp [resolve_workflow, hw, he]
    · simp [resolve_workflow, hw, h1, h2, h3]
  refine ⟨hres, ?_⟩
  have hmem := run_req_issued api params t0 t1
  rwa [hres] at hmem

/-- C2 witness: a mock where GET /workflows fails with a network error;
resolution falls back to the raw workflow string and the run-creation
request is still issued. -/
theorem workflow_resolution_never_aborts_witness :
    (first3 params_empty_events.workflow ≠ "wf_") ∧
    ((resolve_workflow api_fail params_empty_events.workflow).1.1
        = params_empty_events.workflow ∧
      start_run_req (mk_run_params params_empty_events params_empty_events.workflow)
        ∈ (recordRun api_fail params_empty_events 0 0).2) :=
  ⟨by decide,
   workflow_resolution_never_aborts api_fail params_empty_events 0 0 (by decide)
     (Or.inl ⟨NetworkError "connection refused", rfl⟩)⟩

/-- C7: when the events list is empty, `recordRun` issues no
batch-event request (the only requests after workflow resolution are
the run-creation call and the run-end call), the emptiness causes no
error (any error comes from the run-creation or run-end call), and on
success the result reports zero created and zero duplicate events. -/
theorem empty_events_skip_batch (api : Api) (params : RecordRunParams)
    (t0 : Int) (t1 : Int) (h : params.events = []) :
    (∀ req ∈ (recordRun api params t0 t1).2,
      ¬ (req.method = "POST" ∧ req.path = "/run-events/batch")) ∧
    (∀ run_data, api (rr_start_req api params) = Except.ok run_data →
      ∀ end_data, api (rr_end_req params run_data) = Except.ok end_data →
        ∃ r, (recordRun api params t0 t1).1 = Except.ok r ∧
          r.events.created = 0 ∧ r.events.duplicates = 0 ∧
          (recordRun api params t0 t1).2
            = (resolve_workflow api params.workflow).2
              ++ [rr_start_req api params, rr_end_req params run_data]) ∧
    (∀ e, (recordRun api params t0 t1).1 = Except.error e →
      api (rr_start_req api params) = Except.error e ∨
      ∃ run_data, api (rr_start_req api params) = Except.ok run_data ∧
        api (rr_end_req params run_data) = Except.error e) := by
  refine ⟨?_, ?_, ?_⟩
  · intro req hreq
    cases hr : api (rr_start_req api params) with
    | error e0 =>
        rw [recordRun_start_error api params t0 t1 e0 hr] at hreq
        simp at hreq
        rcases hreq with hmem | hreqv
        · rcases resolve_trace_shape api params.workflow req hmem with hv | hv <;>
            rw [hv] <;> simp [workflows_list_req, create_workflow_req]
        · rw [hreqv]
          simp [rr_start_req, start_run_req]
    | ok run_data =>
        rw [recordRun_empty_events api params t0 t1 run_data h hr,
          finish_run_trace] at hreq
        simp at hreq
        rcases hreq with hmem | hreqv | hreqv
        · rcases resolve_trace_shape api params.workflow req hmem with hv | hv <;>
            rw [hv] <;> simp [workflows_list_req, create_workflow_req]
        · rw [hreqv]
          simp [rr_start_req, start_run_req]
        · rw [hreqv]
          simp [end_run_req]
  · intro run_data hok end_data hok2
    have hrec := recordRun_empty_events api params t0 t1 run_data h hok
    have hok2' : api (end_run_req (parse_run run_data).id (mk_end_params params))
        = Except.ok end_data := hok2
    obtain ⟨r, hr1, hr2, hr3⟩ := finish_run_ok api params
      (resolve_workflow api params.workflow).1.1 (resolve_workflow api params.workflow).1.2
      (parse_run run_data) 0 0
      ((resolve_workflow api params.workflow).2 ++ [rr_start_req api params]) t0 t1
      end_data hok2'
    refine ⟨r, ?_, hr2, hr3, ?_⟩
    · rw [hrec]
      exact hr1
    · rw [hrec, finish_run_trace]
      simp [rr_end_req]
  · intro e herr
    cases hr : api (rr_start_req api params) with
    | error e0 =>
        left
        rw [recordRun_start_error api params t0 t1 e0 hr] at herr
        simp at herr
        rw [← herr]
    | ok run_data =>
        right
        have hrec := recordRun_empty_events api params t0 t1 run_data h hr
        cases hend : api (end_run_req (parse_run run_data).id (mk_end_params params)) with
        | error e1 =>
            have hfst : (recordRun api params t0 t1).1 = Except.error e1 := by
              rw [hrec]
              exact finish_run_error api params _ _ _ 0 0 _ t0 t1 e1 hend
            rw [hfst] at herr
            simp at herr
            exact ⟨run_data, rfl, by rw [← herr]; exact hend⟩
        | ok end_data =>
            obtain ⟨r, hr1, _, _⟩ := finish_run_ok api params
              (resolve_workflow api params.workflow).1.1
              (resolve_workflow api params.workflow).1.2
              (parse_run run_data) 0 0
              ((resolve_workflow api params.workflow).2 ++ [rr_start_req api params]) t0 t1
              end_data hend
            rw [hrec] at herr
            rw [hr1] at herr
            exact Except.noConfusion herr

/-- C7 witness: a mock where every call succeeds; `recordRun` with an
empty event list issues no batch request and reports zero counts. -/
theorem empty_events_skip_batch_witness :
    (params_empty_events.events = []) ∧
    ((∀ req ∈ (recordRun api_ok_run params_empty_events 0 5).2,
        ¬ (req.method = "POST" ∧ req.path = "/run-events/batch")) ∧
      (∀ run_data, api_ok_run (rr_start_req api_ok_run params_empty_events) = Except.ok run_data →
        ∀ end_data, api_ok_run (rr_end_req params_empty_events run_data) = Except.ok end_data →
          ∃ r, (recordRun api_ok_run params_empty_events 0 5).1 = Except.ok r ∧
            r.events.created = 0 ∧ r.events.duplicates = 0 ∧
            (recordRun api_ok_run params_empty_events 0 5).2
              = (resolve_workflow api_ok_run params_empty_events.workflow).2
                ++ [rr_start_req api_ok_run params_empty_events,
                    rr_end_req params_empty_events run_data]) ∧
      (∀ e, (recordRun api_ok_run params_empty_events 0 5).1 = Except.error e →
        api_ok_run (rr_start_req api_ok_run params_empty_events) = Except.error e ∨
        ∃ run_data, api_ok_run (rr_start_req api_ok_run params_empty_events) = Except.ok run_data ∧
          api_ok_run (rr_end_req params_empty_events run_data) = Except.error e)) :=
  ⟨rfl, empty_events_skip_batch api_ok_run params_empty_events 0 5 rfl⟩

/-- C9: the idempotency key `trackUsage` puts on the wire is exactly
the caller-supplied key when that key is non-empty; when it is empty it
is the deterministic generator's output on the customer id, the meter,
and the quantity alone, so two calls agreeing on those three inputs
(both with empty caller keys) send equal keys. -/
theorem track_usage_key_policy (p : TrackUsageParams) (q : TrackUsageParams)
    (hc : p.customer_id = q.customer_id) (hm : p.meter = q.meter)
    (hq : p.quantity = q.quantity) :
    (p.idempotency_key ≠ "" →
      json_string (track_usage_body p) "idempotencyKey" = p.idempotency_key) ∧
    (p.idempotency_key = "" →
      json_string (track_usage_body p) "idempotencyKey"
        = make_idempotency_key "track" p.customer_id p.meter p.quantity) ∧
    (p.idempotency_key = "" → q.idempotency_key = "" →
      json_string (track_usage_body p) "idempotencyKey"
        = json_string (track_usage_body q) "idempotencyKey") := by
  refine ⟨fun hne => ?_, fun he => ?_, fun he1 he2 => ?_⟩
  · rw [track_usage_wire_key]
    simp [track_usage_idem_key, hne]
  · rw [track_usage_wire_key]
    simp [track_usage_idem_key, he]
  · rw [track_usage_wire_key, track_usage_wire_key]
    simp [track_usage_idem_key, he1, he2, hc, hm, hq]

/-- C9 witness: two concrete parameter sets agreeing on customer id,
meter, and quantity, both with empty caller keys (and differing
elsewhere), send equal generated keys; a non-empty caller key passes
through verbatim. -/
theorem track_usage_key_policy_witness :
    ((⟨"cus_1", "tokens", 5, "", "", "", []⟩ : TrackUsageParams).customer_id
        = (⟨"cus_1", "tokens", 5, "", "", "desc", []⟩ : TrackUsageParams).customer_id) ∧
    ((⟨"cus_1", "tokens", 5, "", "", "", []⟩ : TrackUsageParams).meter
        = (⟨"cus_1", "tokens", 5, "", "", "desc", []⟩ : TrackUsageParams).meter) ∧
    ((⟨"cus_1", "tokens", 5, "", "", "", []⟩ : TrackUsageParams).quantity
        = (⟨"cus_1", "tokens", 5, "", "", "desc", []⟩ : TrackUsageParams).quantity) ∧
    (((⟨"cus_1", "tokens", 5, "", "", "", []⟩ : TrackUsageParams).idempotency_key ≠ "" →
        json_string (track_usage_body ⟨"cus_1", "tokens", 5, "", "", "", []⟩) "idempotencyKey"
          = (⟨"cus_1", "tokens", 5, "", "", "", []⟩ : TrackUsageParams).idempotency_key) ∧
      ((⟨"cus_1", "tokens", 5, "", "", "", []⟩ : TrackUsageParams).idempotency_key = "" →
        json_string (track_usage_body ⟨"cus_1", "tokens", 5, "", "", "", []⟩) "idempotencyKey"
          = make_idempotency_key "track" "cus_1" "tokens" 5) ∧
      ((⟨"cus_1", "tokens", 5, "", "", "", []⟩ : TrackUsageParams).idempotency_key = "" →
        (⟨"cus_1", "tokens", 5, "", "", "desc", []⟩ : TrackUsageParams).idempotency_key = "" →
        json_string (track_usage_body ⟨"cus_1", "tokens", 5, "", "", "", []⟩) "idempotencyKey"
          = json_string (track_usage_body ⟨"cus_1", "tokens", 5, "", "", "desc", []⟩)
              "idempotencyKey")) :=
  ⟨rfl, rfl, rfl,
   track_usage_key_policy ⟨"cus_1", "tokens", 5, "", "", "", []⟩
     ⟨"cus_1", "tokens", 5, "", "", "desc", []⟩ rfl rfl rfl⟩

/-- C10: a successfully constructed client whose configured timeout was
zero or negative stores 30000 ms; the stored timeout is strictly
positive for every successful construction; and `ping` — the only
operation that writes any client state — leaves the timeout unchanged. -/
theorem timeout_default_positive_stable (env : String → String) (config : Config)
    (st : ImplState) (h : Impl_init env config = Except.ok st) :
    (config.timeout_ms ≤ 0 → st.timeout_ms = 30000) ∧
    0 < st.timeout_ms ∧
    ∀ o elapsed now, ((ping st o elapsed now).2).timeout_ms = st.timeout_ms := by
  have ht : st.timeout_ms = (if config.timeout_ms > 0 then config.timeout_ms else 30000) := by
    by_cases hk : (if config.api_key = "" then env_or env "DRIP_API_KEY" "" else config.api_key) = ""
    · simp [Impl_init, hk] at h
    · simp [Impl_init, hk] at h
      rw [← h]
  refine ⟨fun hle => ?_, ?_, fun o elapsed now => by rw [ping_state_eq]⟩
  · rw [ht, if_neg (by omega)]
  · rw [ht]
    split <;> omega

/-- C10 witness: a configuration with timeout 0 constructs a client
whose stored timeout is 30000 (positive), preserved by ping. -/
theorem timeout_default_positive_stable_witness :
    (Impl_init (fun _ => "") ⟨"sk_x", "http://h/v1", 0⟩
        = Except.ok ⟨"sk_x", "http://h/v1", 30000, KeyType.KEY_SECRET⟩) ∧
    (((⟨"sk_x", "http://h/v1", 0⟩ : Config).timeout_ms ≤ 0 →
        (⟨"sk_x", "http://h/v1", 30000, KeyType.KEY_SECRET⟩ : ImplState).timeout_ms = 30000) ∧
      0 < (⟨"sk_x", "http://h/v1", 30000, KeyType.KEY_SECRET⟩ : ImplState).timeout_ms ∧
      ∀ o elapsed now,
        ((ping ⟨"sk_x", "http://h/v1", 30000, KeyType.KEY_SECRET⟩ o elapsed now).2).timeout_ms
          = (⟨"sk_x", "http://h/v1", 30000, KeyType.KEY_SECRET⟩ : ImplState).timeout_ms) :=
  ⟨by decide,
   timeout_default_positive_stable (fun _ => "") ⟨"sk_x", "http://h/v1", 0⟩
     ⟨"sk_x", "http://h/v1", 30000, KeyType.KEY_SECRET⟩ (by decide)⟩

end Drip
